import Mathlib

/-
Verification of the SBTi-finance-tool-api scoring endpoint layer.

The embedding follows the two source files:
  * `app/app_server.py` (Flask): provider resolution, the portfolio/company
    merge, the empty-merge 400 error, scope/time-frame filtering, include
    columns, anonymization ordering — all inline in
    `TemperatureScoreEndpoint.post`.
  * `app/main.py` (FastAPI): the import endpoint `import_data_provider`
    with its temp-file write loop.
Library calls into the external `SBTi` package (temperature scoring,
aggregation, target validation, coverage) are not part of this repository's
sources; they are treated as opaque function parameters bundled in
`SBTiLib` / `TSModel`, except where a claim needs their behaviour, in which
case a definition is modelled from the spec and marked as such.

Python values appearing in pandas rows are embedded as `Value`
(string / integer / null); a pandas row is an association list from column
name to `Value`, and a DataFrame is a column list plus a row list.
-/

inductive Value where
  | str (s : String)
  | num (n : Int)
  | null
  deriving DecidableEq, Repr

/-- One entry of `config.json`'s `data_providers` list: name, type and the
construction parameters (abstracted to one string). -/
structure ConfigEntry where
  name : String
  ptype : String
  parameters : String
  deriving DecidableEq, Repr

/-- A constructed data-provider instance: its type tag and the parameter it
was built from (`DATA_PROVIDER_MAP[type](**parameters)` in the source). -/
structure ProviderInst where
  ptype : String
  param : String
  deriving DecidableEq, Repr

/-- Building the provider instance for a configuration entry
(`app_server.py` line 60). -/
def instOfConfig (c : ConfigEntry) : ProviderInst :=
  { ptype := c.ptype, param := c.parameters }

/-- Embeds `BaseEndpoint._get_data_providers` (`app_server.py` lines 63-82):
every entry of the request's `data_providers` list is treated as a path and
turned into an Excel provider; only when that list is empty does the
endpoint fall back to all configured providers, in configuration order. -/
def get_data_providers_flask (config : List ConfigEntry) (requested : List String) :
    List ProviderInst :=
  let dps := requested.map (fun path => ProviderInst.mk "excel" path)
  if dps.length = 0 then config.map instOfConfig else dps

/-- A provider-returned company record (`SBTi.data.get_company_data` row):
identifier, provider company name, and further provider columns. -/
structure CompanyRecord where
  company_id : String
  company_name : String
  fields : List (String × Value)
  deriving DecidableEq, Repr

/-- A caller-supplied portfolio row (`json_data["companies"]` entry):
identifier, caller company name, and further caller columns. -/
structure PortfolioRow where
  company_id : String
  company_name : String
  user_fields : List (String × Value)
  deriving DecidableEq, Repr

/-- A row of the merged working dataset. `user_fields = none` plays the
role of the all-NaN right side a pandas left merge produces when no
portfolio row matches the provider record. -/
structure MergedRow where
  company_id : String
  company_name : String
  provider_fields : List (String × Value)
  user_fields : Option (List (String × Value))
  deriving DecidableEq, Repr

/-- One left-merge step for a single left (provider) row: all matching
portfolio rows produce one output row each; no match produces a single row
with empty right side. The caller's `company_name` column was dropped
before the merge (`input_data.drop("company_name", axis=1)`), so the
output name is the provider's. -/
def mergeOne (c : CompanyRecord) (input_data : List PortfolioRow) : List MergedRow :=
  let ms := input_data.filter (fun p => p.company_id == c.company_id)
  if ms.isEmpty then
    [{ company_id := c.company_id, company_name := c.company_name,
       provider_fields := c.fields, user_fields := none }]
  else
    ms.map (fun m =>
      { company_id := c.company_id, company_name := c.company_name,
        provider_fields := c.fields, user_fields := some m.user_fields })

/-- Embeds `app_server.py` line 103:
`pd.merge(left=company_data, right=input_data.drop("company_name", axis=1),
how="left", on=["company_id"])`. The LEFT side is the provider data. -/
def mergeCompanyData (company_data : List CompanyRecord) (input_data : List PortfolioRow) :
    List MergedRow :=
  company_data.flatMap (fun c => mergeOne c input_data)

/-- The merge as claim C4 words it: a left merge of the caller's portfolio
(keyed by identifier) against provider records, with the caller-supplied
value taking precedence on every column collision other than the
identifier (hence the caller's `company_name`). Used only to compare with
`mergeCompanyData`, which embeds the source. -/
def mergeAsClaimC4 (input_data : List PortfolioRow) (company_data : List CompanyRecord) :
    List MergedRow :=
  input_data.flatMap (fun p =>
    let ms := company_data.filter (fun c => c.company_id == p.company_id)
    if ms.isEmpty then
      [{ company_id := p.company_id, company_name := p.company_name,
         provider_fields := [], user_fields := some p.user_fields }]
    else
      ms.map (fun c =>
        { company_id := p.company_id, company_name := p.company_name,
          provider_fields := c.fields, user_fields := some p.user_fields }))

/-- A pandas DataFrame: a column list and rows as association lists. -/
structure DataFrame where
  cols : List String
  rows : List (List (String × Value))
  deriving DecidableEq, Repr

/-- Value of column `c` in row `r` (null when the column is absent). -/
def rowVal (r : List (String × Value)) (c : String) : Value :=
  match r.find? (fun kv => kv.1 == c) with
  | some kv => kv.2
  | none => Value.null

/-- Membership test used by `Series.isin` against a list of strings from
the request JSON. -/
def valIsIn (v : Value) (vals : List String) : Bool :=
  match v with
  | Value.str s => vals.contains s
  | _ => false

/-- Embeds `scores[scores[col].isin(vals)]`. -/
def filter_isin (df : DataFrame) (col : String) (vals : List String) : DataFrame :=
  { df with rows := df.rows.filter (fun r => valIsIn (rowVal r col) vals) }

/-- Embeds the guarded filter of `app_server.py` lines 126-132: the filter
runs only when the supplied list is non-empty. -/
def apply_isin_filter (df : DataFrame) (col : String) (vals : List String) : DataFrame :=
  if vals.length > 0 then filter_isin df col vals else df

/-- The mandatory output columns of `app_server.py` line 135. -/
def mandatory_columns : List String :=
  ["company_name", "scope_category", "time_frame", "temperature_score"]

/-- Embeds `app_server.py` lines 135-136: mandatory columns plus the
requested include-columns that exist on the score DataFrame. -/
def include_columns_list (requested : List String) (cols : List String) : List String :=
  mandatory_columns ++ requested.filter (fun column => cols.contains column)

/-- Column projection of a single row: `scores[include_columns]` row-wise. -/
def projectRow (r : List (String × Value)) (cols : List String) : List (String × Value) :=
  cols.map (fun c => (c, rowVal r c))

/-- Embeds the DataFrame column projection `scores[include_columns]`. -/
def projectDF (df : DataFrame) (cols : List String) : DataFrame :=
  { cols := cols, rows := df.rows.map (fun r => projectRow r cols) }

/-- A target-data row as returned by a provider (opaque columns). -/
def TargetRow : Type := List (String × Value)

instance : DecidableEq TargetRow := by
  unfold TargetRow
  infer_instance

/-- The `TemperatureScore` object of the SBTi library, as the endpoint uses
it: opaque functions for calculation, aggregation, anonymization and the
grouping distribution. Constructed by `SBTiLib.mk_temperature_score`. -/
structure TSModel where
  calculate : DataFrame → DataFrame
  aggregate_scores : DataFrame → DataFrame
  anonymize_data_dump : DataFrame → DataFrame
  columns_percentage_distribution : DataFrame → List String → DataFrame

/-- The external SBTi library surface the endpoint calls into. Provider
queries are fallible (`Except`); the remaining operations are opaque
deterministic functions, exactly the shape the Python call sites use. -/
structure SBTiLib where
  query_company_data : ProviderInst → List String → Except String (List CompanyRecord)
  query_targets : ProviderInst → List String → Except String (List TargetRow)
  mk_temperature_score : Rat → Option Value → Option (List String) → String → TSModel
  target_validation : List TargetRow → List MergedRow → DataFrame
  portfolio_coverage : DataFrame → String → Rat

/-- Recovery of a fallible provider query result: a raised exception is
treated as an empty record list. -/
def recoverQuery {α : Type} (r : Except String (List α)) : List α :=
  match r with
  | Except.ok rs => rs
  | Except.error _ => []

/-- Modelled from the spec: `SBTi.data.get_company_data` is in the SBTi
library, not in this repository's sources. Per the required policy of §5,
"a provider that raises is treated as returning zero records", and results
of the providers are concatenated in provider order. -/
def get_company_data (query : ProviderInst → List String → Except String (List CompanyRecord))
    (dps : List ProviderInst) (ids : List String) : List CompanyRecord :=
  (dps.map (fun dp => recoverQuery (query dp ids))).flatten

/-- Modelled from the spec: `SBTi.data.get_targets`, same recovery policy
and concatenation as `get_company_data`. -/
def get_targets (query : ProviderInst → List String → Except String (List TargetRow))
    (dps : List ProviderInst) (ids : List String) : List TargetRow :=
  (dps.map (fun dp => recoverQuery (query dp ids))).flatten

/-- The JSON body of a `/temperature_score/` request, with the fields the
Flask endpoint reads. -/
structure TSRequest where
  companies : List PortfolioRow
  data_providers : List String
  default_score : Option Rat
  aggregation_method : String
  grouping_columns : Option (List String)
  scenario : Option Value
  filter_scope_category : List String
  filter_time_frame : List String
  include_columns : List String
  anonymize_data_dump : Bool

/-- The server-side configuration fields the endpoint reads. -/
structure AppConfig where
  data_providers : List ConfigEntry
  default_score : Rat

/-- The success body of the `/temperature_score/` response. -/
structure TSResponse where
  aggregated_scores : DataFrame
  scores : DataFrame
  coverage : Rat
  companies : DataFrame
  feature_distribution : Option DataFrame

/-- The merged working dataset a request produces, before the empty check
(`app_server.py` lines 100-104). -/
def merged_input (lib : SBTiLib) (config : AppConfig) (req : TSRequest) : List MergedRow :=
  let dps := get_data_providers_flask config.data_providers req.data_providers
  let ids := req.companies.map (fun c => c.company_id)
  mergeCompanyData (get_company_data lib.query_company_data dps ids) req.companies

/-- Embeds `TemperatureScoreEndpoint.post` (`app_server.py` lines 96-157)
step by step: provider resolution, company/target retrieval, left merge,
empty-merge 400 error, temperature scoring and aggregation, scope and
time-frame filters, include-column computation, coverage, grouping
distribution, and finally the optional anonymization of the row-level
scores. -/
def temperature_score_post (lib : SBTiLib) (config : AppConfig) (req : TSRequest) :
    Except (Nat × String) TSResponse :=
  let dps := get_data_providers_flask config.data_providers req.data_providers
  let ids := req.companies.map (fun c => c.company_id)
  let target_data := get_targets lib.query_targets dps ids
  let merged := merged_input lib config req
  if merged.length = 0 then
    Except.error (400, "None of the companies in your portfolio could be found by the data provider")
  else
    let fallback := req.default_score.getD config.default_score
    let ts := lib.mk_temperature_score fallback req.scenario req.grouping_columns
      req.aggregation_method
    let portfolio_data := lib.target_validation target_data merged
    let scores0 := ts.calculate portfolio_data
    let aggregations := ts.aggregate_scores scores0
    let scores1 := apply_isin_filter scores0 "scope_category" req.filter_scope_category
    let scores2 := apply_isin_filter scores1 "time_frame" req.filter_time_frame
    let include_cols := include_columns_list req.include_columns scores2.cols
    let coverage := lib.portfolio_coverage portfolio_data req.aggregation_method
    let column_distribution :=
      match req.grouping_columns with
      | some g => if g.length > 0
          then some (ts.columns_percentage_distribution portfolio_data g)
          else none
      | none => none
    let scores3 := if req.anonymize_data_dump then ts.anonymize_data_dump scores2 else scores2
    Except.ok
      { aggregated_scores := aggregations
        scores := scores3
        coverage := coverage
        companies := projectDF scores3 include_cols
        feature_distribution := column_distribution }

/-- Replaces every raising provider query of a library by one returning
zero records, leaving everything else unchanged. -/
def suppress_errors (lib : SBTiLib) : SBTiLib :=
  { lib with
    query_company_data := fun dp ids => Except.ok (recoverQuery (lib.query_company_data dp ids))
    query_targets := fun dp ids => Except.ok (recoverQuery (lib.query_targets dp ids)) }

/-- Aggregation-relevant projection of a response: the fields claim C9 says
are unaffected by the anonymize flag. -/
def respAggregations (r : Except (Nat × String) TSResponse) : Option DataFrame :=
  match r with
  | Except.ok resp => some resp.aggregated_scores
  | Except.error _ => none

/-- Coverage projection of a response. -/
def respCoverage (r : Except (Nat × String) TSResponse) : Option Rat :=
  match r with
  | Except.ok resp => some resp.coverage
  | Except.error _ => none

/-- Feature-distribution projection of a response. -/
def respDistribution (r : Except (Nat × String) TSResponse) : Option (Option DataFrame) :=
  match r with
  | Except.ok resp => some resp.feature_distribution
  | Except.error _ => none

/-- Error projection of a response. -/
def respError (r : Except (Nat × String) TSResponse) : Option (Nat × String) :=
  match r with
  | Except.ok _ => none
  | Except.error e => some e

/-- A portfolio company as the Coverage Calculator sees it: its weight
under the aggregation method and whether it has at least one validated
target. -/
structure CoverageCompany where
  weight : Rat
  validated : Bool
  deriving DecidableEq, Repr

/-- Modelled from the spec: `PortfolioCoverageTVP.get_portfolio_coverage`
is in the SBTi library, not in this repository's sources. Per §4.7 the
numerator is the weighted sum over companies with at least one validated
target and the denominator the weighted sum over the entire portfolio. -/
def portfolio_coverage_tvp (companies : List CoverageCompany) : Rat :=
  ((companies.filter (fun c => c.validated)).map (fun c => c.weight)).sum /
    (companies.map (fun c => c.weight)).sum

/-- The file-system state the import endpoint touches: the contents of
`data/input_format.xlsx` (the destination) and of
`data/input_format_tmp.xlsx` (the temporary file); `none` means the file
does not exist. File contents are byte lists. -/
structure FsState where
  dest : Option (List Nat)
  tmp : Option (List Nat)
  deriving DecidableEq, Repr

/-- The three outcomes of `import_data_provider` in `main.py`: the success
body, the oversize body carrying a 400 status-code message, and the raised
`HTTPException(500)` for a non-xlsx name. -/
inductive ImportResponse where
  | imported
  | save_error_400
  | http_500
  deriving DecidableEq, Repr

/-- Embeds Python's `str.split('.')` on a character list. -/
def splitOnDot : List Char → List (List Char)
  | [] => [[]]
  | c :: rest =>
    if c = '.' then [] :: splitOnDot rest
    else
      match splitOnDot rest with
      | [] => [[c]]
      | g :: gs => (c :: g) :: gs

/-- Embeds `file_name.split('.')[-1]` of `main.py` line 152. -/
def file_type (name : List Char) : List Char :=
  (splitOnDot name).getLastD []

/-- Rejoining dot-separated groups; inverse of `splitOnDot`, used to relate
the extension check to the literal file name. -/
def unsplitDot : List (List Char) → List Char
  | [] => []
  | [g] => g
  | g :: gs => g ++ '.' :: unsplitDot gs

/-- Splitting a byte list into the successive results of `read(10000)`
(`main.py` line 157), with structural fuel. -/
def chunkifyAux : Nat → List Nat → List (List Nat)
  | 0, _ => []
  | _, [] => []
  | fuel + 1, l@(_ :: _) => l.take 10000 :: chunkifyAux fuel (l.drop 10000)

/-- The chunk sequence `iter(lambda: file.file.read(10000), b'')` yields
for an upload body. -/
def chunkify (l : List Nat) : List (List Nat) :=
  chunkifyAux l.length l

/-- Embeds the write loop of `main.py` lines 157-163: append each chunk,
increment the counter, abort (returning `none`, the removed-file outcome)
as soon as the counter exceeds 1000 = 10000000 / 10000. -/
def write_loop : List (List Nat) → List Nat → Nat → Option (List Nat)
  | [], acc, _ => some acc
  | chunk :: rest, acc, xi =>
    let acc2 := acc ++ chunk
    let xi2 := xi + 1
    if xi2 > 1000 then none else write_loop rest acc2 xi2

/-- Embeds `import_data_provider` (`main.py` lines 143-168). The temporary
file is opened in append mode (`'ab'`), so writing starts from its current
contents; on abort the temporary file is removed and the destination
untouched; on completion `os.replace` moves the temporary file over the
destination; a name whose last dot-component is not `xlsx` raises
`HTTPException(500)` without touching any file. -/
def import_data_provider (st : FsState) (name : List Char) (content : List Nat) :
    FsState × ImportResponse :=
  if file_type name = "xlsx".toList then
    match write_loop (chunkify content) (st.tmp.getD []) 0 with
    | none => ({ st with tmp := none }, ImportResponse.save_error_400)
    | some bytes => ({ dest := some bytes, tmp := none }, ImportResponse.imported)
  else
    (st, ImportResponse.http_500)

/-- A trivial concrete `TemperatureScore` model, used to instantiate
theorems at concrete inputs. -/
def tsModelEx : TSModel :=
  { calculate := fun df => df
    aggregate_scores := fun df => df
    anonymize_data_dump := fun df => df
    columns_percentage_distribution := fun df _ => df }

/-- A concrete library whose providers return no records. -/
def libEx : SBTiLib :=
  { query_company_data := fun _ _ => Except.ok []
    query_targets := fun _ _ => Except.ok []
    mk_temperature_score := fun _ _ _ _ => tsModelEx
    target_validation := fun _ _ => { cols := [], rows := [] }
    portfolio_coverage := fun _ _ => 0 }

/-- A concrete server configuration with one provider. -/
def configEx : AppConfig :=
  { data_providers := [{ name := "dummy", ptype := "excel", parameters := "inputs.xlsx" }]
    default_score := 32 / 10 }

/-- A concrete request: a one-company portfolio, no filters, defaults. -/
def reqEx : TSRequest :=
  { companies := [{ company_id := "B", company_name := "", user_fields := [] }]
    data_providers := []
    default_score := none
    aggregation_method := "WATS"
    grouping_columns := none
    scenario := none
    filter_scope_category := []
    filter_time_frame := []
    include_columns := []
    anonymize_data_dump := false }

/-- A concrete configured-provider list for the resolution counterexample. -/
def cfgC3 : List ConfigEntry :=
  [{ name := "csvprov", ptype := "csv", parameters := "data.csv" }]

/-- Concrete provider-returned company data for the merge counterexample. -/
def cdC4 : List CompanyRecord :=
  [{ company_id := "A", company_name := "ProvName", fields := [] }]

/-- Concrete caller portfolio for the merge counterexample: company `A`
with a caller-supplied name, and company `B` unknown to the provider. -/
def pfC4 : List PortfolioRow :=
  [{ company_id := "A", company_name := "CallerName", user_fields := [] },
   { company_id := "B", company_name := "Beta", user_fields := [] }]

/-- A concrete coverage input: one validated company of weight 1, one
unvalidated company of weight 3. -/
def covEx : List CoverageCompany :=
  [{ weight := 1, validated := true }, { weight := 3, validated := false }]

/-- A concrete file-system state: a destination file exists, no leftover
temporary file. -/
def fsEx : FsState := { dest := some [9, 9], tmp := none }

theorem mergeOne_ne_nil (c : CompanyRecord) (pf : List PortfolioRow) : mergeOne c pf ≠ [] := by
  unfold mergeOne
  dsimp only
  split
  · simp
  · rename_i hne
    rw [Ne, List.map_eq_nil_iff]
    rw [List.isEmpty_iff] at hne
    simpa using hne

theorem mergeCompanyData_eq_nil_iff (cd : List CompanyRecord) (pf : List PortfolioRow) :
    mergeCompanyData cd pf = [] ↔ cd = [] := by
  induction cd with
  | nil => simp [mergeCompanyData]
  | cons c cs ih =>
    simp only [mergeCompanyData, List.flatMap_cons, List.append_eq_nil] at *
    constructor
    · rintro ⟨h1, _⟩
      exact absurd h1 (mergeOne_ne_nil c pf)
    · intro h
      exact absurd h (List.cons_ne_nil c cs)

theorem mem_mergeOne {r : MergedRow} {c : CompanyRecord} {pf : List PortfolioRow}
    (h : r ∈ mergeOne c pf) :
    r.company_id = c.company_id ∧ r.company_name = c.company_name
    ∧ r.provider_fields = c.fields
    ∧ ∀ uf, r.user_fields = some uf →
        ∃ p ∈ pf, p.company_id = c.company_id ∧ uf = p.user_fields := by
  unfold mergeOne at h
  dsimp only at h
  split at h
  · simp only [List.mem_singleton] at h
    subst h
    refine ⟨rfl, rfl, rfl, ?_⟩
    intro uf huf
    simp at huf
  · simp only [List.mem_map] at h
    obtain ⟨m, hm, rfl⟩ := h
    rw [List.mem_filter] at hm
    refine ⟨rfl, rfl, rfl, ?_⟩
    intro uf huf
    simp only [Option.some.injEq] at huf
    exact ⟨m, hm.1, by simpa using hm.2, huf.symm⟩

theorem exists_mem_mergeOne (c : CompanyRecord) (pf : List PortfolioRow) :
    ∃ r ∈ mergeOne c pf, r.company_id = c.company_id := by
  obtain ⟨r, rs, hr⟩ : ∃ r rs, mergeOne c pf = r :: rs := by
    cases hm : mergeOne c pf with
    | nil => exact absurd hm (mergeOne_ne_nil c pf)
    | cons r rs => exact ⟨r, rs, rfl⟩
  refine ⟨r, by simp [hr], ?_⟩
  have : r ∈ mergeOne c pf := by simp [hr]
  exact (mem_mergeOne this).1

/-- C1: for every request whose merge of provider-returned company records
with the portfolio yields zero rows, the temperature-score endpoint
returns the 400 client error whose message explains that no companies
could be matched, rather than crashing or returning an empty success
result (`app_server.py` lines 105-109). -/
theorem c1_empty_merge_400 (lib : SBTiLib) (config : AppConfig) (req : TSRequest)
    (h : (merged_input lib config req).length = 0) :
    temperature_score_post lib config req =
      Except.error
        (400, "None of the companies in your portfolio could be found by the data provider") := by
  unfold temperature_score_post
  simp [h]

/-- Witness for C1: a one-company portfolio whose company the provider
does not know yields the 400 error. -/
theorem c1_empty_merge_400_witness :
    temperature_score_post libEx configEx reqEx =
      Except.error
        (400, "None of the companies in your portfolio could be found by the data provider") :=
  c1_empty_merge_400 libEx configEx reqEx rfl

/-- C2: a data provider that raises during its query is treated as having
returned zero records and the failure is not surfaced (replacing all
raising queries by empty-returning ones leaves the whole response
unchanged); the request fails with the empty-result 400 error exactly when
no usable company data exists across all providers. Modelled from the
spec: the recovery policy lives in `SBTi.data.get_company_data`, which is
not part of this repository's sources. -/
theorem c2_provider_failure_policy (lib : SBTiLib) (config : AppConfig) (req : TSRequest) :
    temperature_score_post (suppress_errors lib) config req
      = temperature_score_post lib config req
    ∧ (respError (temperature_score_post lib config req) =
        some (400, "None of the companies in your portfolio could be found by the data provider")
      ↔ get_company_data lib.query_company_data
          (get_data_providers_flask config.data_providers req.data_providers)
          (req.companies.map (fun c => c.company_id)) = []) := by
  constructor
  · rfl
  · unfold temperature_score_post
    by_cases h : (merged_input lib config req).length = 0
    · rw [List.length_eq_zero] at h
      have hcd := (mergeCompanyData_eq_nil_iff _ req.companies).mp h
      simp [h, List.length_eq_zero, respError]
      unfold merged_input at hcd
      exact hcd
    · rw [List.length_eq_zero] at h
      have hcd : ¬ (get_company_data lib.query_company_data
          (get_data_providers_flask config.data_providers req.data_providers)
          (req.companies.map (fun c => c.company_id)) = []) := by
        intro hc
        apply h
        unfold merged_input
        rw [mergeCompanyData_eq_nil_iff]
        exact hc
      simp [h, List.length_eq_zero, respError, hcd]

/-- C3 counterexample: a request whose single requested provider entry
matches no configured provider name does not fall back to the configured
providers; the Flask resolver builds an Excel provider from the entry
instead (`app_server.py` lines 72-81). -/
theorem c3_no_match_counterexample :
    (∀ c ∈ cfgC3, c.name ≠ "other") ∧
    get_data_providers_flask cfgC3 ["other"] ≠ cfgC3.map instOfConfig := by decide

/-- C3 (amended): when the requested provider list is empty the resolver
returns all configured providers in configuration order; when it is
non-empty the resolver returns one Excel provider per requested entry,
in request order, never consulting the configured providers. -/
theorem c3_flask_resolution (config : List ConfigEntry) (requested : List String) :
    (requested = [] → get_data_providers_flask config requested = config.map instOfConfig)
    ∧ (requested ≠ [] →
        get_data_providers_flask config requested =
          requested.map (fun path => ProviderInst.mk "excel" path)) := by
  constructor
  · intro h
    subst h
    rfl
  · intro h
    unfold get_data_providers_flask
    simp [List.length_eq_zero, h]

/-- Witness for C3 (amended) at the concrete configuration and an empty
and a non-empty request list. -/
theorem c3_flask_resolution_witness :
    (([] : List String) = [] → get_data_providers_flask cfgC3 [] = cfgC3.map instOfConfig)
    ∧ ((["other"] : List String) ≠ [] →
        get_data_providers_flask cfgC3 ["other"] =
          (["other"] : List String).map (fun path => ProviderInst.mk "excel" path)) :=
  ⟨(c3_flask_resolution cfgC3 []).1, (c3_flask_resolution cfgC3 ["other"]).2⟩

/-- C4 counterexample: at a concrete input the source merge differs from
the merge the claim describes — the code keeps provider rows (dropping
portfolio-only company B) and the provider's company name wins, while the
claimed merge keeps all portfolio rows with the caller's name. -/
theorem c4_merge_counterexample :
    mergeCompanyData cdC4 pfC4 ≠ mergeAsClaimC4 pfC4 cdC4
    ∧ (mergeCompanyData cdC4 pfC4).map (fun r => r.company_name) = ["ProvName"]
    ∧ (mergeAsClaimC4 pfC4 cdC4).map (fun r => r.company_name) = ["CallerName", "Beta"] := by
  decide

/-- C4 (amended): the assembled dataset is a left merge of the
provider-returned company records (keyed by identifier) against the
caller's portfolio with the caller's name column dropped: every output row
carries a provider record's identifier, company name and provider fields;
every provider record yields at least one output row; attached caller
fields come from a portfolio row with the same identifier. -/
theorem c4_merge_amended (cd : List CompanyRecord) (pf : List PortfolioRow) :
    (∀ r ∈ mergeCompanyData cd pf,
        ∃ c ∈ cd, r.company_id = c.company_id ∧ r.company_name = c.company_name
          ∧ r.provider_fields = c.fields)
    ∧ (∀ c ∈ cd, ∃ r ∈ mergeCompanyData cd pf, r.company_id = c.company_id)
    ∧ (∀ r ∈ mergeCompanyData cd pf, ∀ uf, r.user_fields = some uf →
        ∃ p ∈ pf, p.company_id = r.company_id ∧ uf = p.user_fields) := by
  refine ⟨?_, ?_, ?_⟩
  · intro r hr
    rw [mergeCompanyData, List.mem_flatMap] at hr
    obtain ⟨c, hc, hrc⟩ := hr
    have h := mem_mergeOne hrc
    exact ⟨c, hc, h.1, h.2.1, h.2.2.1⟩
  · intro c hc
    obtain ⟨r, hr, hid⟩ := exists_mem_mergeOne c pf
    refine ⟨r, ?_, hid⟩
    rw [mergeCompanyData, List.mem_flatMap]
    exact ⟨c, hc, hr⟩
  · intro r hr uf huf
    rw [mergeCompanyData, List.mem_flatMap] at hr
    obtain ⟨c, _, hrc⟩ := hr
    have h := mem_mergeOne hrc
    obtain ⟨p, hp, hpid, hpuf⟩ := h.2.2.2 uf huf
    exact ⟨p, hp, by rw [h.1]; exact hpid, hpuf⟩

/-- Witness for C4 (amended) at the concrete counterexample input. -/
theorem c4_merge_amended_witness :
    (∀ r ∈ mergeCompanyData cdC4 pfC4,
        ∃ c ∈ cdC4, r.company_id = c.company_id ∧ r.company_name = c.company_name
          ∧ r.provider_fields = c.fields)
    ∧ (∀ c ∈ cdC4, ∃ r ∈ mergeCompanyData cdC4 pfC4, r.company_id = c.company_id)
    ∧ (∀ r ∈ mergeCompanyData cdC4 pfC4, ∀ uf, r.user_fields = some uf →
        ∃ p ∈ pfC4, p.company_id = r.company_id ∧ uf = p.user_fields) :=
  c4_merge_amended cdC4 pfC4

/-- C5: the per-company output rows contain exactly the mandatory columns
plus those caller-requested include-columns that exist on the score rows;
a requested column that does not exist is silently dropped and never
causes an error (`app_server.py` lines 134-136 and 155; the computation is
a total function). -/
theorem c5_include_columns (requested : List String) (df : DataFrame) :
    (∀ c, c ∈ include_columns_list requested df.cols ↔
        (c ∈ mandatory_columns ∨ (c ∈ requested ∧ c ∈ df.cols)))
    ∧ (projectDF df (include_columns_list requested df.cols)).cols
        = include_columns_list requested df.cols
    ∧ ∀ r ∈ (projectDF df (include_columns_list requested df.cols)).rows,
        r.map Prod.fst = include_columns_list requested df.cols := by
  refine ⟨?_, rfl, ?_⟩
  · intro c
    simp [include_columns_list, List.mem_filter, List.elem_iff]
  · intro r hr
    simp only [projectDF, List.mem_map] at hr
    obtain ⟨r0, _, rfl⟩ := hr
    simp [projectRow, List.map_map, Function.comp_def]

/-- Witness for C5 at a concrete score DataFrame with two requested
columns, one existing and one not. -/
theorem c5_include_columns_witness :
    (∀ c, c ∈ include_columns_list ["sector", "ghost"] (DataFrame.mk ["sector"] []).cols ↔
        (c ∈ mandatory_columns ∨
          (c ∈ ["sector", "ghost"] ∧ c ∈ (DataFrame.mk ["sector"] []).cols)))
    ∧ (projectDF (DataFrame.mk ["sector"] [])
        (include_columns_list ["sector", "ghost"] (DataFrame.mk ["sector"] []).cols)).cols
        = include_columns_list ["sector", "ghost"] (DataFrame.mk ["sector"] []).cols
    ∧ ∀ r ∈ (projectDF (DataFrame.mk ["sector"] [])
        (include_columns_list ["sector", "ghost"] (DataFrame.mk ["sector"] []).cols)).rows,
        r.map Prod.fst = include_columns_list ["sector", "ghost"] (DataFrame.mk ["sector"] []).cols :=
  c5_include_columns ["sector", "ghost"] (DataFrame.mk ["sector"] [])

/-- C6: an empty scope-category or time-frame filter set leaves the score
rows unchanged, and a non-empty set retains exactly the rows whose value
in the filtered column is a member of the set; instantiated in the
pipeline at the columns `scope_category` and `time_frame`
(`app_server.py` lines 126-132). -/
theorem c6_filter_semantics (df : DataFrame) (col : String) (vals : List String) :
    (vals = [] → apply_isin_filter df col vals = df)
    ∧ (vals ≠ [] →
        (apply_isin_filter df col vals).cols = df.cols
        ∧ (apply_isin_filter df col vals).rows =
            df.rows.filter (fun r => valIsIn (rowVal r col) vals)
        ∧ ∀ r, r ∈ (apply_isin_filter df col vals).rows ↔
            (r ∈ df.rows ∧ valIsIn (rowVal r col) vals = true)) := by
  constructor
  · intro h
    subst h
    rfl
  · intro h
    have hlen : vals.length > 0 := List.length_pos.mpr h
    unfold apply_isin_filter
    rw [if_pos hlen]
    refine ⟨rfl, rfl, ?_⟩
    intro r
    simp [filter_isin, List.mem_filter]

/-- Witness for C6 at a concrete DataFrame: the empty filter is the
identity, and a non-empty filter keeps exactly the matching rows. -/
theorem c6_filter_semantics_witness :
    ((["s1s2"] : List String) = [] →
        apply_isin_filter (DataFrame.mk ["scope_category"] [[("scope_category", Value.str "s3")]])
          "scope_category" ["s1s2"] =
          DataFrame.mk ["scope_category"] [[("scope_category", Value.str "s3")]])
    ∧ ((["s1s2"] : List String) ≠ [] →
        (apply_isin_filter (DataFrame.mk ["scope_category"] [[("scope_category", Value.str "s3")]])
            "scope_category" ["s1s2"]).cols =
          (DataFrame.mk ["scope_category"] [[("scope_category", Value.str "s3")]]).cols
        ∧ (apply_isin_filter (DataFrame.mk ["scope_category"] [[("scope_category", Value.str "s3")]])
            "scope_category" ["s1s2"]).rows =
          (DataFrame.mk ["scope_category"] [[("scope_category", Value.str "s3")]]).rows.filter
            (fun r => valIsIn (rowVal r "scope_category") ["s1s2"])
        ∧ ∀ r, r ∈ (apply_isin_filter
            (DataFrame.mk ["scope_category"] [[("scope_category", Value.str "s3")]])
            "scope_category" ["s1s2"]).rows ↔
            (r ∈ (DataFrame.mk ["scope_category"] [[("scope_category", Value.str "s3")]]).rows
              ∧ valIsIn (rowVal r "scope_category") ["s1s2"] = true)) :=
  c6_filter_semantics (DataFrame.mk ["scope_category"] [[("scope_category", Value.str "s3")]])
    "scope_category" ["s1s2"]

theorem weights_sum_nonneg (l : List CoverageCompany) (h : ∀ c ∈ l, 0 ≤ c.weight) :
    0 ≤ (l.map (fun c => c.weight)).sum := by
  apply List.sum_nonneg
  intro x hx
  rw [List.mem_map] at hx
  obtain ⟨c, hc, rfl⟩ := hx
  exact h c hc

theorem filtered_weights_le (l : List CoverageCompany) (h : ∀ c ∈ l, 0 ≤ c.weight) :
    ((l.filter (fun c => c.validated)).map (fun c => c.weight)).sum ≤
      (l.map (fun c => c.weight)).sum := by
  induction l with
  | nil => simp
  | cons c cs ih =>
    have hc : 0 ≤ c.weight := h c (List.mem_cons_self c cs)
    have hcs : ∀ x ∈ cs, 0 ≤ x.weight := fun x hx => h x (List.mem_cons_of_mem c hx)
    by_cases hv : c.validated
    · simp only [List.filter_cons, hv, if_pos, List.map_cons, List.sum_cons]
      simpa using ih hcs
    · simp only [List.filter_cons, hv, List.map_cons, List.sum_cons]
      simp only [Bool.false_eq_true, if_neg, not_false_iff]
      calc ((cs.filter (fun c => c.validated)).map (fun c => c.weight)).sum
          ≤ (cs.map (fun c => c.weight)).sum := ih hcs
        _ ≤ c.weight + (cs.map (fun c => c.weight)).sum := by linarith

/-- C7: the coverage value is always in the closed interval from 0 to 1;
it equals 1 when every portfolio company has at least one validated target
(and the portfolio carries positive weight) and 0 when no company does.
Modelled from the spec: `PortfolioCoverageTVP.get_portfolio_coverage` is
in the SBTi library, not in this repository's sources; weights are
nonnegative as the weighting schemes of the spec derive them. -/
theorem c7_coverage_bounds (companies : List CoverageCompany)
    (h : ∀ c ∈ companies, 0 ≤ c.weight) :
    0 ≤ portfolio_coverage_tvp companies
    ∧ portfolio_coverage_tvp companies ≤ 1
    ∧ ((∀ c ∈ companies, c.validated = true) →
        0 < (companies.map (fun c => c.weight)).sum →
        portfolio_coverage_tvp companies = 1)
    ∧ ((∀ c ∈ companies, c.validated = false) → portfolio_coverage_tvp companies = 0) := by
  have hN : 0 ≤ ((companies.filter (fun c => c.validated)).map (fun c => c.weight)).sum := by
    apply weights_sum_nonneg
    intro c hc
    exact h c (List.mem_of_mem_filter hc)
  have hD : 0 ≤ (companies.map (fun c => c.weight)).sum := weights_sum_nonneg companies h
  have hND := filtered_weights_le companies h
  refine ⟨div_nonneg hN hD, ?_, ?_, ?_⟩
  · rcases eq_or_lt_of_le hD with hD0 | hDpos
    · unfold portfolio_coverage_tvp
      rw [← hD0, div_zero]
      norm_num
    · exact (div_le_one hDpos).mpr hND
  · intro hall hpos
    unfold portfolio_coverage_tvp
    have : companies.filter (fun c => c.validated) = companies :=
      List.filter_eq_self.mpr hall
    rw [this]
    exact div_self (ne_of_gt hpos)
  · intro hnone
    unfold portfolio_coverage_tvp
    have : companies.filter (fun c => c.validated) = [] := by
      rw [List.filter_eq_nil_iff]
      intro c hc
      simp [hnone c hc]
    rw [this]
    simp

/-- Witness for C7 at a concrete two-company portfolio. -/
theorem c7_coverage_bounds_witness :
    (∀ c ∈ covEx, 0 ≤ c.weight) ∧
    (0 ≤ portfolio_coverage_tvp covEx
    ∧ portfolio_coverage_tvp covEx ≤ 1
    ∧ ((∀ c ∈ covEx, c.validated = true) →
        0 < (covEx.map (fun c => c.weight)).sum →
        portfolio_coverage_tvp covEx = 1)
    ∧ ((∀ c ∈ covEx, c.validated = false) → portfolio_coverage_tvp covEx = 0)) :=
  ⟨by decide, c7_coverage_bounds covEx (by decide)⟩

/-- C8: two pipeline invocations with identical inputs — portfolio,
parameters, configuration and identical provider responses (all carried by
the `SBTiLib` value) — produce identical responses, hence identical
score-row sets with identical ordering and values. The embedded pipeline
is a pure function of these inputs, mirroring the stateless source. -/
theorem c8_two_run_determinism (lib lib2 : SBTiLib) (config config2 : AppConfig)
    (req req2 : TSRequest) (h1 : lib = lib2) (h2 : config = config2) (h3 : req = req2) :
    temperature_score_post lib config req = temperature_score_post lib2 config2 req2 := by
  subst h1
  subst h2
  subst h3
  rfl

/-- Witness for C8: the two runs at the concrete inputs agree. -/
theorem c8_two_run_determinism_witness :
    temperature_score_post libEx configEx reqEx = temperature_score_post libEx configEx reqEx :=
  c8_two_run_determinism libEx libEx configEx configEx reqEx reqEx rfl rfl rfl

/-- C9: the aggregated scores, the coverage, the feature distribution and
the error outcome of a response are independent of the anonymize flag;
anonymization (`app_server.py` lines 147-148) runs after aggregation
(line 124) and coverage (line 139), so the flag changes at most the
row-level `scores` and `companies` fields. -/
theorem c9_anonymize_frame (lib : SBTiLib) (config : AppConfig) (req : TSRequest) (a b : Bool) :
    respAggregations (temperature_score_post lib config { req with anonymize_data_dump := a })
      = respAggregations (temperature_score_post lib config { req with anonymize_data_dump := b })
    ∧ respCoverage (temperature_score_post lib config { req with anonymize_data_dump := a })
      = respCoverage (temperature_score_post lib config { req with anonymize_data_dump := b })
    ∧ respDistribution (temperature_score_post lib config { req with anonymize_data_dump := a })
      = respDistribution (temperature_score_post lib config { req with anonymize_data_dump := b })
    ∧ respError (temperature_score_post lib config { req with anonymize_data_dump := a })
      = respError (temperature_score_post lib config { req with anonymize_data_dump := b }) := by
  have hm : merged_input lib config { req with anonymize_data_dump := a }
      = merged_input lib config { req with anonymize_data_dump := b } := rfl
  unfold temperature_score_post
  by_cases h : (merged_input lib config { req with anonymize_data_dump := a }).length = 0
  · rw [if_pos h, if_pos (hm ▸ h)]
    exact ⟨rfl, rfl, rfl, rfl⟩
  · rw [if_neg h, if_neg (hm ▸ h)]
    exact ⟨rfl, rfl, rfl, rfl⟩

theorem splitOnDot_ne_nil (l : List Char) : splitOnDot l ≠ [] := by
  induction l with
  | nil => simp [splitOnDot]
  | cons c rest ih =>
    unfold splitOnDot
    by_cases hc : c = '.'
    · simp [hc]
    · rw [if_neg hc]
      split
      · simp
      · simp

theorem getLastD_cons_ne {α : Type} (x : α) (S : List α) (d : α) (h : S ≠ []) :
    (x :: S).getLastD d = S.getLastD d := by
  cases S with
  | nil => contradiction
  | cons y ys =>
    rw [List.getLastD_eq_getLast?, List.getLastD_eq_getLast?, List.getLast?_cons_cons]

theorem unsplit_splitOnDot (l : List Char) : unsplitDot (splitOnDot l) = l := by
  induction l with
  | nil => rfl
  | cons c rest ih =>
    by_cases hc : c = '.'
    · subst hc
      unfold splitOnDot
      rw [if_pos rfl]
      cases h : splitOnDot rest with
      | nil => exact absurd h (splitOnDot_ne_nil rest)
      | cons g gs =>
        rw [h] at ih
        have he : unsplitDot ([] :: g :: gs) = '.' :: unsplitDot (g :: gs) := rfl
        rw [he, ih]
    · unfold splitOnDot
      rw [if_neg hc]
      cases h : splitOnDot rest with
      | nil => exact absurd h (splitOnDot_ne_nil rest)
      | cons g gs =>
        rw [h] at ih
        cases gs with
        | nil =>
          have he : unsplitDot [c :: g] = c :: g := rfl
          have hg : unsplitDot [g] = g := rfl
          rw [hg] at ih
          rw [he, ih]
        | cons g2 gs2 =>
          have he : unsplitDot ((c :: g) :: g2 :: gs2)
              = (c :: g) ++ '.' :: unsplitDot (g2 :: gs2) := rfl
          have hg : unsplitDot (g :: g2 :: gs2) = g ++ '.' :: unsplitDot (g2 :: gs2) := rfl
          rw [hg] at ih
          rw [he, List.cons_append, ih]

theorem getLastD_suffix (groups : List (List Char)) (h : groups ≠ []) :
    groups.getLastD [] <:+ unsplitDot groups := by
  induction groups with
  | nil => contradiction
  | cons g gs ih =>
    cases gs with
    | nil =>
      have e1 : ([g] : List (List Char)).getLastD [] = g := rfl
      have e2 : unsplitDot [g] = g := rfl
      rw [e1, e2]
    | cons g2 gs2 =>
      have e1 : ((g :: g2 :: gs2) : List (List Char)).getLastD []
          = (g2 :: gs2).getLastD [] := getLastD_cons_ne g (g2 :: gs2) [] (by simp)
      have e2 : unsplitDot (g :: g2 :: gs2) = g ++ '.' :: unsplitDot (g2 :: gs2) := rfl
      rw [e1, e2]
      have hs := ih (by simp)
      exact hs.trans ((List.suffix_cons '.' _).trans (List.suffix_append g _))

theorem file_type_suffix (name : List Char) : file_type name <:+ name := by
  have h := getLastD_suffix (splitOnDot name) (splitOnDot_ne_nil name)
  rw [unsplit_splitOnDot] at h
  exact h

theorem chunkifyAux_flatten : ∀ (fuel : Nat) (l : List Nat), l.length ≤ fuel →
    (chunkifyAux fuel l).flatten = l := by
  intro fuel
  induction fuel with
  | zero =>
    intro l h
    have hl : l = [] := List.length_eq_zero.mp (Nat.le_zero.mp h)
    subst hl
    rfl
  | succ n ih =>
    intro l h
    cases l with
    | nil => rfl
    | cons x xs =>
      have hlen : (List.drop 10000 (x :: xs)).length ≤ n := by
        rw [List.length_drop]
        simp only [List.length_cons] at h ⊢
        omega
      show (List.take 10000 (x :: xs) :: chunkifyAux n (List.drop 10000 (x :: xs))).flatten
          = x :: xs
      rw [List.flatten_cons, ih _ hlen, List.take_append_drop]

theorem chunkifyAux_count_le : ∀ (fuel k : Nat) (l : List Nat), l.length ≤ fuel →
    l.length ≤ 10000 * k → (chunkifyAux fuel l).length ≤ k := by
  intro fuel
  induction fuel with
  | zero =>
    intro k l h _
    have hl : l = [] := List.length_eq_zero.mp (Nat.le_zero.mp h)
    subst hl
    simp [chunkifyAux]
  | succ n ih =>
    intro k l h hk
    cases l with
    | nil => simp [chunkifyAux]
    | cons x xs =>
      cases k with
      | zero =>
        exfalso
        simp only [List.length_cons, Nat.mul_zero] at hk
        omega
      | succ j =>
        have h1 : (List.drop 10000 (x :: xs)).length ≤ n := by
          rw [List.length_drop]
          simp only [List.length_cons] at h ⊢
          omega
        have h2 : (List.drop 10000 (x :: xs)).length ≤ 10000 * j := by
          rw [List.length_drop]
          simp only [List.length_cons] at hk ⊢
          omega
        have h3 := ih j _ h1 h2
        show (List.take 10000 (x :: xs) :: chunkifyAux n (List.drop 10000 (x :: xs))).length
            ≤ j + 1
        rw [List.length_cons]
        omega

theorem chunkifyAux_count_gt : ∀ (fuel k : Nat) (l : List Nat), l.length ≤ fuel →
    10000 * k < l.length → k < (chunkifyAux fuel l).length := by
  intro fuel
  induction fuel with
  | zero =>
    intro k l h hk
    have hl : l = [] := List.length_eq_zero.mp (Nat.le_zero.mp h)
    subst hl
    simp at hk
  | succ n ih =>
    intro k l h hk
    cases l with
    | nil => simp at hk
    | cons x xs =>
      cases k with
      | zero =>
        show 0 < (List.take 10000 (x :: xs) :: chunkifyAux n (List.drop 10000 (x :: xs))).length
        simp
      | succ j =>
        have h1 : (List.drop 10000 (x :: xs)).length ≤ n := by
          rw [List.length_drop]
          simp only [List.length_cons] at h ⊢
          omega
        have h2 : 10000 * j < (List.drop 10000 (x :: xs)).length := by
          rw [List.length_drop]
          simp only [List.length_cons] at hk ⊢
          omega
        have h3 := ih j _ h1 h2
        show j + 1 < (List.take 10000 (x :: xs) :: chunkifyAux n (List.drop 10000 (x :: xs))).length
        rw [List.length_cons]
        omega

theorem write_loop_complete : ∀ (chunks : List (List Nat)) (acc : List Nat) (xi : Nat),
    chunks.length + xi ≤ 1000 → write_loop chunks acc xi = some (acc ++ chunks.flatten) := by
  intro chunks
  induction chunks with
  | nil =>
    intro acc xi _
    simp [write_loop]
  | cons c rest ih =>
    intro acc xi h
    simp only [List.length_cons] at h
    show (if xi + 1 > 1000 then none else write_loop rest (acc ++ c) (xi + 1))
        = some (acc ++ (c :: rest).flatten)
    rw [if_neg (by omega), ih (acc ++ c) (xi + 1) (by omega)]
    rw [List.flatten_cons, List.append_assoc]

theorem write_loop_abort : ∀ (chunks : List (List Nat)) (acc : List Nat) (xi : Nat),
    xi ≤ 1000 → 1000 < chunks.length + xi → write_loop chunks acc xi = none := by
  intro chunks
  induction chunks with
  | nil =>
    intro acc xi h1 h2
    simp only [List.length_nil] at h2
    omega
  | cons c rest ih =>
    intro acc xi h1 h2
    simp only [List.length_cons] at h2
    show (if xi + 1 > 1000 then none else write_loop rest (acc ++ c) (xi + 1)) = none
    by_cases hb : xi + 1 > 1000
    · rw [if_pos hb]
    · rw [if_neg hb]
      exact ih (acc ++ c) (xi + 1) (by omega) (by omega)

/-- C10: the destination file `input_format.xlsx` is left unchanged unless
the upload completes in full — the upload goes to a temporary file that
replaces the destination only after all chunks are written; on an
oversized upload (more than 10000000 bytes, i.e. more than 1000 chunks of
10000 bytes) the temporary file is deleted, an error is reported and the
destination untouched; a file whose name does not end in `xlsx` is never
written at all (`main.py` lines 143-168). Stated for a request arriving
with no leftover temporary file. -/
theorem c10_import_atomicity (st : FsState) (name : List Char) (content : List Nat)
    (htmp : st.tmp = none) :
    (¬ ("xlsx".toList <:+ name) →
        import_data_provider st name content = (st, ImportResponse.http_500))
    ∧ (10000000 < content.length →
        (import_data_provider st name content).1.dest = st.dest
        ∧ (import_data_provider st name content).1.tmp = none
        ∧ (import_data_provider st name content).2 ≠ ImportResponse.imported)
    ∧ (file_type name = "xlsx".toList → content.length ≤ 10000000 →
        import_data_provider st name content =
          ({ dest := some content, tmp := none }, ImportResponse.imported))
    ∧ ((import_data_provider st name content).2 ≠ ImportResponse.imported →
        (import_data_provider st name content).1.dest = st.dest) := by
  by_cases hx : file_type name = "xlsx".toList
  · have hsuf : "xlsx".toList <:+ name := hx ▸ file_type_suffix name
    have hchl : (chunkify content).flatten = content :=
      chunkifyAux_flatten content.length content le_rfl
    by_cases hsize : content.length ≤ 10000000
    · have hcnt : (chunkify content).length ≤ 1000 :=
        chunkifyAux_count_le content.length 1000 content le_rfl (by omega)
      have hwl : write_loop (chunkify content) (st.tmp.getD []) 0
          = some ((st.tmp.getD []) ++ (chunkify content).flatten) :=
        write_loop_complete (chunkify content) (st.tmp.getD []) 0 (by omega)
      rw [htmp, Option.getD_none, List.nil_append, hchl] at hwl
      have hres : import_data_provider st name content =
          ({ dest := some content, tmp := none }, ImportResponse.imported) := by
        unfold import_data_provider
        rw [if_pos hx, htmp, Option.getD_none, hwl]
      refine ⟨fun hns => absurd hsuf hns, fun hbig => absurd hsize (by omega),
        fun _ _ => hres, ?_⟩
      rw [hres]
      intro h
      exact absurd rfl h
    · have hcnt : 1000 < (chunkify content).length :=
        chunkifyAux_count_gt content.length 1000 content le_rfl (by omega)
      have hwl : write_loop (chunkify content) (st.tmp.getD []) 0 = none :=
        write_loop_abort (chunkify content) (st.tmp.getD []) 0 (by omega) (by omega)
      have hres : import_data_provider st name content =
          ({ st with tmp := none }, ImportResponse.save_error_400) := by
        unfold import_data_provider
        rw [if_pos hx, hwl]
      refine ⟨fun hns => absurd hsuf hns, fun _ => ?_, fun _ hle => absurd hle hsize, ?_⟩
      · rw [hres]
        exact ⟨rfl, rfl, by simp⟩
      · rw [hres]
        intro _
        rfl
  · have hres : import_data_provider st name content = (st, ImportResponse.http_500) := by
      unfold import_data_provider
      rw [if_neg hx]
    refine ⟨fun _ => hres, fun _ => ?_, fun hxx => absurd hxx hx, ?_⟩
    · rw [hres]
      exact ⟨rfl, htmp, by simp⟩
    · rw [hres]
      intro _
      rfl

/-- Witness for C10: a well-formed `b.xlsx` upload of three bytes against
a state holding an existing destination and no temporary file. -/
theorem c10_import_atomicity_witness :
    fsEx.tmp = none
    ∧ ((¬ ("xlsx".toList <:+ "b.xlsx".toList) →
        import_data_provider fsEx "b.xlsx".toList [1, 2, 3] = (fsEx, ImportResponse.http_500))
    ∧ (10000000 < ([1, 2, 3] : List Nat).length →
        (import_data_provider fsEx "b.xlsx".toList [1, 2, 3]).1.dest = fsEx.dest
        ∧ (import_data_provider fsEx "b.xlsx".toList [1, 2, 3]).1.tmp = none
        ∧ (import_data_provider fsEx "b.xlsx".toList [1, 2, 3]).2 ≠ ImportResponse.imported)
    ∧ (file_type "b.xlsx".toList = "xlsx".toList → ([1, 2, 3] : List Nat).length ≤ 10000000 →
        import_data_provider fsEx "b.xlsx".toList [1, 2, 3] =
          ({ dest := some [1, 2, 3], tmp := none }, ImportResponse.imported))
    ∧ ((import_data_provider fsEx "b.xlsx".toList [1, 2, 3]).2 ≠ ImportResponse.imported →
        (import_data_provider fsEx "b.xlsx".toList [1, 2, 3]).1.dest = fsEx.dest)) :=
  ⟨rfl, c10_import_atomicity fsEx "b.xlsx".toList [1, 2, 3] rfl⟩
